import Mathlib

/-!
OPNsense Terraform provider: Quagga OSPF interface resource and data source.

A shallow embedding of `internal/service/quagga_ospf_interface_schema.go`,
`quagga_ospf_interface_resource.go` and `quagga_ospf_interface_data_source.go`.

* Framework attribute values (`types.Bool`, `types.String`, `types.Int64`) are
  the three-state `TfValue`: null, unknown, or a known value.
* `int64` is `Int`; the theorems range over values inside the 64-bit range,
  stated as a bound where it matters, and the string parser yields no value
  outside it.
* Go's `(value, error)` results are `Except GoError value`.
* The lifecycle methods are state-passing functions from the request and the
  incoming response to the outgoing response plus the trace of effects
  (remote client calls and state writes) in the order they happen.
-/

namespace OPNsense

/-! ## Framework values -/

/-- A framework attribute value: `types.Bool`, `types.String`, `types.Int64`.
The zero value of the Go struct is `null`. -/
inductive TfValue (α : Type) where
  | null : TfValue α
  | unknown : TfValue α
  | known (v : α) : TfValue α
  deriving DecidableEq, Repr

/-- `types.Bool.ValueBool()`: the known value, `false` when null or unknown. -/
def ValueBool : TfValue Bool → Bool
  | .known b => b
  | _ => false

/-- `types.String.ValueString()`: the known value, `""` when null or unknown. -/
def ValueString : TfValue String → String
  | .known s => s
  | _ => ""

/-- `types.Int64.ValueInt64()`: the known value, `0` when null or unknown. -/
def ValueInt64 : TfValue Int → Int
  | .known i => i
  | _ => 0

/-- `types.BoolValue(b)`. -/
def BoolValue (b : Bool) : TfValue Bool := .known b

/-- `types.StringValue(s)`. -/
def StringValue (s : String) : TfValue String := .known s

/-- `types.Int64Value(i)`. -/
def Int64Value (i : Int) : TfValue Int := .known i

/-! ## Errors and diagnostics -/

/-- A Go `error` as the code observes it: its text (`%s`) and whether
`errors.As(err, &notFoundError)` finds an `*errs.NotFoundError` in its chain. -/
structure GoError where
  msg : String
  isNotFound : Bool
  deriving DecidableEq, Repr

/-- Severity of a diagnostic. -/
inductive Severity where
  | error
  | warning
  deriving DecidableEq, Repr

/-- A framework diagnostic. -/
structure Diagnostic where
  severity : Severity
  summary : String
  detail : String
  deriving DecidableEq, Repr

/-- `diag.Diagnostics`. -/
abbrev Diagnostics := List Diagnostic

/-- `Diagnostics.HasError()`. -/
def HasError (ds : Diagnostics) : Bool :=
  ds.any (fun d => decide (d.severity = Severity.error))

/-- `Diagnostics.AddError(summary, detail)`. -/
def AddError (ds : Diagnostics) (summary detail : String) : Diagnostics :=
  ds ++ [⟨Severity.error, summary, detail⟩]

/-! ## The `tools` conversions -/

/-- The decimal digit character of `d` (for `d < 10`). -/
def digitChar (d : Nat) : Char := Char.ofNat (48 + d)

/-- Digits of `n`, most significant first, pushed in front of `acc`; `fuel`
bounds the number of digits produced. -/
def toDigitsFuel : Nat → Nat → List Char → List Char
  | 0, _, acc => acc
  | fuel + 1, n, acc =>
    if n / 10 = 0 then digitChar (n % 10) :: acc
    else toDigitsFuel fuel (n / 10) (digitChar (n % 10) :: acc)

/-- Decimal digits of a natural number (`n + 1` steps always suffice). -/
def natToDec (n : Nat) : List Char := toDigitsFuel (n + 1) n []

/-- Reading of a run of decimal digits, left to right; `none` on any other
character. -/
def parseDigits : List Char → Nat → Option Nat
  | [], acc => some acc
  | c :: cs, acc =>
    if c.isDigit then parseDigits cs (acc * 10 + (c.toNat - 48)) else none

/-- Modelled from the spec: `tools.Int64ToString` (package `internal/tools`
is not among the sources). The spec says the adapter "converts all int64
fields to decimal-string form", this one being the "plain non-negative string
conversion": the decimal numeral. The spec leaves its result on a negative
value open; here it is the numeral with a leading minus sign, and the claims
use it on positive values only. -/
def Int64ToString (i : Int) : String :=
  if i < 0 then String.mk ('-' :: natToDec i.natAbs) else String.mk (natToDec i.toNat)

/-- Modelled from the spec: `tools.Int64ToStringNegative` (package
`internal/tools` is not among the sources). The spec calls it the
"negative-preserving" string conversion in which "the sentinel -1 is encoded
literally": the decimal numeral of the value, sign included. -/
def Int64ToStringNegative (i : Int) : String :=
  if i < 0 then String.mk ('-' :: natToDec i.natAbs) else String.mk (natToDec i.toNat)

/-- Modelled from the spec: `tools.StringToInt64` (package `internal/tools` is
not among the sources), the "string→int64" conversion that is the inverse of
the two above. The call sites use its result as a plain `int64`, so it is
total: a string that is not the decimal numeral of a 64-bit integer yields 0
here, a case the spec leaves open. -/
def StringToInt64 (s : String) : Int :=
  let inRange (v : Int) : Int :=
    if -9223372036854775808 ≤ v ∧ v ≤ 9223372036854775807 then v else 0
  match s.data with
  | [] => 0
  | '-' :: cs =>
    match cs with
    | [] => 0
    | _ => match parseDigits cs 0 with
      | some n => inRange (-(n : Int))
      | none => 0
  | cs =>
    match parseDigits cs 0 with
    | some n => inRange (n : Int)
    | none => 0

/-- Modelled from the spec: `tools.BoolToString` (package `internal/tools` is
not among the sources): the "remote boolean-token convention", `"1"` for true
(the spec's example sends `Enabled:"1"`) and `"0"` for false. -/
def BoolToString (b : Bool) : String := if b then "1" else "0"

/-- Modelled from the spec: `tools.StringToBool` (package `internal/tools` is
not among the sources): the "string→bool" inverse of `BoolToString`, true
exactly for the token `"1"`. -/
def StringToBool (s : String) : Bool := decide (s = "1")

/-! ## The two record shapes -/

/-- Modelled from the spec: `api.SelectedMap` of the client library, the
"selected option" wrapper: "pass-through of the raw string tagged as the
active selection". -/
structure SelectedMap where
  value : String
  deriving DecidableEq, Repr

/-- `api.SelectedMap(s)`: the conversion of a string to the wrapper. -/
def SelectedMap.ofString (s : String) : SelectedMap := ⟨s⟩

/-- `SelectedMap.String()`: "unwrapping back into their plain string value". -/
def SelectedMap.String (s : SelectedMap) : String := s.value

/-- `QuaggaOSPFInterfaceResourceModel`: the resource data model. -/
structure QuaggaOSPFInterfaceResourceModel where
  Enabled : TfValue Bool
  InterfaceName : TfValue String
  AuthType : TfValue String
  AuthKey : TfValue Int
  AuthKeyID : TfValue Int
  Area : TfValue String
  Cost : TfValue Int
  CostDemoted : TfValue Int
  HelloInterval : TfValue Int
  DeadInterval : TfValue Int
  RetransmitInterval : TfValue Int
  RetransmitDelay : TfValue Int
  TransmitDelay : TfValue Int
  Priority : TfValue Int
  BFD : TfValue Bool
  NetworkType : TfValue String
  Id : TfValue String
  deriving DecidableEq, Repr

/-- `quagga.OSPFInterface`: the remote representation, with the fields the
converters read and write. -/
structure OSPFInterface where
  Enabled : String
  InterfaceName : SelectedMap
  AuthType : SelectedMap
  AuthKey : String
  AuthKeyID : String
  Area : String
  Cost : String
  CostDemoted : String
  HelloInterval : String
  DeadInterval : String
  RetransmitInterval : String
  RetransmitDelay : String
  TransmitDelay : String
  Priority : String
  BFD : String
  NetworkType : SelectedMap
  deriving DecidableEq, Repr

/-- `convertQuaggaOSPFInterfaceSchemaToStruct`: model to remote struct. The
error result is always nil. -/
def convertQuaggaOSPFInterfaceSchemaToStruct (d : QuaggaOSPFInterfaceResourceModel) :
    Except GoError OSPFInterface :=
  .ok {
    Enabled := BoolToString (ValueBool d.Enabled)
    InterfaceName := SelectedMap.ofString (ValueString d.InterfaceName)
    AuthType := SelectedMap.ofString (ValueString d.AuthType)
    AuthKey := Int64ToStringNegative (ValueInt64 d.AuthKey)
    AuthKeyID := Int64ToString (ValueInt64 d.AuthKeyID)
    Area := ValueString d.Area
    Cost := Int64ToString (ValueInt64 d.Cost)
    CostDemoted := Int64ToString (ValueInt64 d.CostDemoted)
    HelloInterval := Int64ToStringNegative (ValueInt64 d.HelloInterval)
    DeadInterval := Int64ToStringNegative (ValueInt64 d.DeadInterval)
    RetransmitInterval := Int64ToStringNegative (ValueInt64 d.RetransmitInterval)
    RetransmitDelay := Int64ToStringNegative (ValueInt64 d.RetransmitDelay)
    TransmitDelay := Int64ToStringNegative (ValueInt64 d.TransmitDelay)
    Priority := Int64ToStringNegative (ValueInt64 d.Priority)
    BFD := BoolToString (ValueBool d.BFD)
    NetworkType := SelectedMap.ofString (ValueString d.NetworkType) }

/-- `convertQuaggaOSPFInterfaceStructToSchema`: remote struct to model. `Id`
is not assigned, so it keeps the zero value (null); the error result is
always nil. -/
def convertQuaggaOSPFInterfaceStructToSchema (d : OSPFInterface) :
    Except GoError QuaggaOSPFInterfaceResourceModel :=
  .ok {
    Enabled := BoolValue (StringToBool d.Enabled)
    InterfaceName := StringValue d.InterfaceName.String
    AuthType := StringValue d.AuthType.String
    AuthKey := Int64Value (StringToInt64 d.AuthKey)
    AuthKeyID := Int64Value (StringToInt64 d.AuthKeyID)
    Area := StringValue d.Area
    Cost := Int64Value (StringToInt64 d.Cost)
    CostDemoted := Int64Value (StringToInt64 d.CostDemoted)
    HelloInterval := Int64Value (StringToInt64 d.HelloInterval)
    DeadInterval := Int64Value (StringToInt64 d.DeadInterval)
    RetransmitInterval := Int64Value (StringToInt64 d.RetransmitInterval)
    RetransmitDelay := Int64Value (StringToInt64 d.RetransmitDelay)
    TransmitDelay := Int64Value (StringToInt64 d.TransmitDelay)
    Priority := Int64Value (StringToInt64 d.Priority)
    BFD := BoolValue (StringToBool d.BFD)
    NetworkType := StringValue d.NetworkType.String
    Id := .null }

/-! ## The resource schema -/

/-- The string validators the schema uses; `OneOf` is
`stringvalidator.OneOf(values...)`. -/
inductive StringValidator where
  | OneOf (values : List String)
  deriving DecidableEq, Repr

/-- The int64 validators the schema uses; `Between` is
`int64validator.Between(min, max)`. -/
inductive Int64Validator where
  | Between (min max : Int)
  deriving DecidableEq, Repr

/-- `OneOf` passes a configured string exactly when it equals one of the
listed values (case-sensitive). -/
def StringValidator.accepts : StringValidator → String → Bool
  | .OneOf values, s => values.contains s

/-- `Between` passes a configured integer exactly when `min ≤ v ≤ max`. -/
def Int64Validator.accepts : Int64Validator → Int → Bool
  | .Between min max, v => decide (min ≤ v ∧ v ≤ max)

/-- `schema.BoolAttribute`. -/
structure BoolAttribute where
  MarkdownDescription : String
  Required : Bool := false
  Optional : Bool := false
  Computed : Bool := false
  Default : Option Bool := none
  deriving DecidableEq, Repr

/-- `schema.StringAttribute`. `UseStateForUnknown` records the
`stringplanmodifier.UseStateForUnknown()` plan modifier. -/
structure StringAttribute where
  MarkdownDescription : String
  Required : Bool := false
  Optional : Bool := false
  Computed : Bool := false
  Default : Option String := none
  Validators : List StringValidator := []
  UseStateForUnknown : Bool := false
  deriving DecidableEq, Repr

/-- `schema.Int64Attribute`. -/
structure Int64Attribute where
  MarkdownDescription : String
  Required : Bool := false
  Optional : Bool := false
  Computed : Bool := false
  Default : Option Int := none
  Validators : List Int64Validator := []
  deriving DecidableEq, Repr

/-- `schema.Attribute`: one of the three attribute kinds in use. -/
inductive Attribute where
  | Bool (a : BoolAttribute)
  | String (a : StringAttribute)
  | Int64 (a : Int64Attribute)
  deriving DecidableEq, Repr

/-- `schema.Schema`: the `Attributes` map, as an association list in source
order. -/
structure Schema where
  MarkdownDescription : String
  Attributes : List (String × Attribute)
  deriving Repr

/-- `quaggaOSPFInterfaceResourceSchema()`. -/
def quaggaOSPFInterfaceResourceSchema : Schema where
  MarkdownDescription := "Configure interface for OSPF"
  Attributes := [
    ("enabled", .Bool {
      MarkdownDescription := "Enable this interface. Defaults to `true`."
      Optional := true
      Computed := true
      Default := some true }),
    ("interfacename", .String {
      MarkdownDescription := "Select an interface where this settings apply. This uses an identifier like `lan` or or `opt2`. Defaults to `\"\"`."
      Optional := true
      Computed := true
      Default := some "" }),
    ("authtype", .String {
      MarkdownDescription := "Defines security method for OSPF exchanges (None, plain, or MD5) to prevent unauthorized updates. Choose `MD5` or `plain`."
      Optional := true
      Computed := true
      Default := some ""
      Validators := [.OneOf ["", "message-digest", "plain"]] }),
    ("authkey", .Int64 {
      MarkdownDescription := "Specifies a password or key used for plain or MD5 authentication. Defaults to `-1`."
      Optional := true
      Computed := true
      Default := some (-1) }),
    ("authkey_id", .Int64 {
      MarkdownDescription := "Numeric identifier for MD5 authentication, ensuring correct key selection. The auth key ID. Defaults to `1`."
      Required := true
      Validators := [.Between 1 255] }),
    ("area", .String {
      MarkdownDescription := "Assigns the network to an OSPF area using an identifier like 0.0.0.0 (Backbone Area). The Backbone Area connects other areas, supporting inter-area communication, while additional areas (e.g., 0.0.0.1, 0.0.0.255) segment the network logically to limit routing updates. Only use Area in Interface tab or in Network tab once. Defaults to `\"\"`."
      Optional := true
      Computed := true
      Default := some "" }),
    ("cost", .Int64 {
      MarkdownDescription := "Sets the OSPF metric for path selection; lower costs are preferred paths within the area. Defaults to `-1`."
      Optional := true
      Computed := true
      Default := some 40
      Validators := [.Between 1 65535] }),
    ("cost_demoted", .Int64 {
      MarkdownDescription := "Specifies metric cost when interface is in backup mode via CARP, deprioritizing paths dynamically. Defaults to `65535`."
      Optional := true
      Computed := true
      Default := some 65535
      Validators := [.Between 1 65535] }),
    ("hellointerval", .Int64 {
      MarkdownDescription := "Sets frequency (in seconds) of Hello packets to maintain OSPF neighbor relationships. Defaults to `-1`."
      Optional := true
      Computed := true
      Default := some (-1)
      Validators := [.Between 0 4294967295] }),
    ("deadinterval", .Int64 {
      MarkdownDescription := "Defines the timeout period for OSPF neighbors; after this period, the neighbor is marked as down. Defaults to `-1`."
      Optional := true
      Computed := true
      Default := some (-1)
      Validators := [.Between 0 4294967295] }),
    ("retransmitinterval", .Int64 {
      MarkdownDescription := "Time (seconds) to wait before resending Link-State Advertisements (LSAs) if acknowledgment is delayed. Defaults to `-1`."
      Optional := true
      Computed := true
      Default := some (-1)
      Validators := [.Between 0 4294967295] }),
    ("retransmitdelay", .Int64 {
      MarkdownDescription := "Configures the hold time before LSAs are resent, accommodating slow or high-latency links. Defaults to `-1`."
      Optional := true
      Computed := true
      Default := some (-1)
      Validators := [.Between 0 4294967295] }),
    ("transmitdelay", .Int64 {
      MarkdownDescription := "Configures the hold time before LSAs are resent, accommodating slow or high-latency links. Defaults to `-1`."
      Optional := true
      Computed := true
      Default := some (-1)
      Validators := [.Between 0 4294967295] }),
    ("priority", .Int64 {
      MarkdownDescription := "Determines the likelihood of becoming a Designated Router; higher values increase priority. Defaults to `-1`."
      Optional := true
      Computed := true
      Default := some (-1)
      Validators := [.Between 0 4294967295] }),
    ("bfd", .Bool {
      MarkdownDescription := "Activates Bidirectional Forwarding Detection for rapid link failure detection; peer configuration required. Defaults to `false`."
      Optional := true
      Computed := true
      Default := some false }),
    ("networktype", .String {
      MarkdownDescription := "Defines the OSPF network type, impacting adjacency and LSA flooding methods. Defaults to `\"\"`."
      Optional := true
      Computed := true
      Default := some ""
      Validators := [.OneOf ["broadcast", "non-broadcast", "point-to-multipoint", "point-to-point"]] }),
    ("id", .String {
      MarkdownDescription := "UUID of the interface."
      Computed := true
      UseStateForUnknown := true })]

/-- The attribute registered under `name`, if any. -/
def Schema.attribute (sch : Schema) (name : String) : Option Attribute :=
  sch.Attributes.lookup name

/-- Validation of a configured (known) string for attribute `name`: the
value passes when `name` is a string attribute and every one of its
validators accepts the value. -/
def Schema.acceptsString (sch : Schema) (name : String) (v : String) : Bool :=
  match sch.attribute name with
  | some (.String a) => a.Validators.all (fun val => val.accepts v)
  | _ => false

/-- Validation of a configured (known) integer for attribute `name`: the
value passes when `name` is an int64 attribute and every one of its
validators accepts the value. -/
def Schema.acceptsInt64 (sch : Schema) (name : String) (v : Int) : Bool :=
  match sch.attribute name with
  | some (.Int64 a) => a.Validators.all (fun val => val.accepts v)
  | _ => false

/-! ## Lifecycle operations -/

/-- The remote client's OSPF-interface calls (`r.client.Quagga()`), each
giving the result of the one call made with those arguments. -/
structure QuaggaClient where
  AddOSPFInterface : OSPFInterface → Except GoError String
  GetOSPFInterface : String → Except GoError OSPFInterface
  UpdateOSPFInterface : String → OSPFInterface → Option GoError
  DeleteOSPFInterface : String → Option GoError

/-- An observable effect of a lifecycle operation: a call on the remote
client, or a write to the response state. -/
inductive Effect where
  | AddOSPFInterface (payload : OSPFInterface)
  | GetOSPFInterface (id : String)
  | UpdateOSPFInterface (id : String) (payload : OSPFInterface)
  | DeleteOSPFInterface (id : String)
  | StateSet (data : QuaggaOSPFInterfaceResourceModel)
  | StateRemoveResource
  deriving DecidableEq, Repr

/-- Whether the effect is a call on the remote client. -/
def Effect.isClientCall : Effect → Bool
  | .StateSet _ => false
  | .StateRemoveResource => false
  | _ => true

/-- The result of `req.Plan.Get(ctx, &data)`, `req.State.Get(ctx, &data)` or
`req.Config.Get(ctx, &data)`: the diagnostics returned and the model read. -/
structure Decoded where
  diags : Diagnostics
  data : QuaggaOSPFInterfaceResourceModel
  deriving DecidableEq, Repr

/-- The response of a lifecycle method: its diagnostics and its state, where
`none` is the null state (no resource tracked). -/
structure Response where
  Diagnostics : Diagnostics
  State : Option QuaggaOSPFInterfaceResourceModel
  deriving DecidableEq, Repr

/-- What a lifecycle method leaves behind: the response and the effects it
performed, in order. -/
structure Outcome where
  resp : Response
  trace : List Effect
  deriving DecidableEq, Repr

/-- `resp.State.Set(ctx, &data)` for a model whose fields are the schema's
attributes: the state becomes `data` and no diagnostic is returned. -/
def StateSet (resp : Response) (data : QuaggaOSPFInterfaceResourceModel) : Response :=
  { resp with State := some data }

/-- `resp.State.RemoveResource(ctx)`: the state becomes null. -/
def StateRemoveResource (resp : Response) : Response :=
  { resp with State := none }

/-- `QuaggaOSPFInterfaceResource.Create`. `plan` is what `req.Plan.Get`
yields, `resp` the response as handed in. -/
def QuaggaOSPFInterfaceResource.Create (client : QuaggaClient) (plan : Decoded)
    (resp : Response) : Outcome :=
  let resp := { resp with Diagnostics := resp.Diagnostics ++ plan.diags }
  if HasError resp.Diagnostics then ⟨resp, []⟩
  else
    let data := plan.data
    match convertQuaggaOSPFInterfaceSchemaToStruct data with
    | .error err =>
      ⟨{ resp with Diagnostics := (AddError resp.Diagnostics "Client Error"
          ("Unable to parse ospf interface, got error: " ++ err.msg)) }, []⟩
    | .ok ospfInterface =>
      match client.AddOSPFInterface ospfInterface with
      | .error err =>
        ⟨{ resp with Diagnostics := (AddError resp.Diagnostics "Client Error"
            ("Unable to create ospf interface, got error: " ++ err.msg)) },
          [.AddOSPFInterface ospfInterface]⟩
      | .ok id =>
        let data := { data with Id := StringValue id }
        ⟨StateSet resp data, [.AddOSPFInterface ospfInterface, .StateSet data]⟩

/-- `QuaggaOSPFInterfaceResource.Read`. `state` is what `req.State.Get`
yields, `resp` the response as handed in. -/
def QuaggaOSPFInterfaceResource.Read (client : QuaggaClient) (state : Decoded)
    (resp : Response) : Outcome :=
  let resp := { resp with Diagnostics := resp.Diagnostics ++ state.diags }
  if HasError resp.Diagnostics then ⟨resp, []⟩
  else
    let data := state.data
    match client.GetOSPFInterface (ValueString data.Id) with
    | .error err =>
      if err.isNotFound then
        ⟨StateRemoveResource resp,
          [.GetOSPFInterface (ValueString data.Id), .StateRemoveResource]⟩
      else
        ⟨{ resp with Diagnostics := (AddError resp.Diagnostics "Client Error"
            ("Unable to read ospf interface, got error: " ++ err.msg)) },
          [.GetOSPFInterface (ValueString data.Id)]⟩
    | .ok ospfInterface =>
      match convertQuaggaOSPFInterfaceStructToSchema ospfInterface with
      | .error err =>
        ⟨{ resp with Diagnostics := (AddError resp.Diagnostics "Client Error"
            ("Unable to read ospf interface, got error: " ++ err.msg)) },
          [.GetOSPFInterface (ValueString data.Id)]⟩
      | .ok ospfInterfaceModel =>
        let ospfInterfaceModel := { ospfInterfaceModel with Id := data.Id }
        ⟨StateSet resp ospfInterfaceModel,
          [.GetOSPFInterface (ValueString data.Id), .StateSet ospfInterfaceModel]⟩

/-- `QuaggaOSPFInterfaceResource.Update`. `plan` is what `req.Plan.Get`
yields, `resp` the response as handed in. -/
def QuaggaOSPFInterfaceResource.Update (client : QuaggaClient) (plan : Decoded)
    (resp : Response) : Outcome :=
  let resp := { resp with Diagnostics := resp.Diagnostics ++ plan.diags }
  if HasError resp.Diagnostics then ⟨resp, []⟩
  else
    let data := plan.data
    match convertQuaggaOSPFInterfaceSchemaToStruct data with
    | .error err =>
      ⟨{ resp with Diagnostics := (AddError resp.Diagnostics "Client Error"
          ("Unable to parse ospf interface, got error: " ++ err.msg)) }, []⟩
    | .ok ospfInterface =>
      match client.UpdateOSPFInterface (ValueString data.Id) ospfInterface with
      | some err =>
        ⟨{ resp with Diagnostics := (AddError resp.Diagnostics "Client Error"
            ("Unable to create ospf interface, got error: " ++ err.msg)) },
          [.UpdateOSPFInterface (ValueString data.Id) ospfInterface]⟩
      | none =>
        ⟨StateSet resp data,
          [.UpdateOSPFInterface (ValueString data.Id) ospfInterface, .StateSet data]⟩

/-- `QuaggaOSPFInterfaceResource.Delete`. `state` is what `req.State.Get`
yields, `resp` the response as handed in. -/
def QuaggaOSPFInterfaceResource.Delete (client : QuaggaClient) (state : Decoded)
    (resp : Response) : Outcome :=
  let resp := { resp with Diagnostics := resp.Diagnostics ++ state.diags }
  if HasError resp.Diagnostics then ⟨resp, []⟩
  else
    let data := state.data
    match client.DeleteOSPFInterface (ValueString data.Id) with
    | some err =>
      ⟨{ resp with Diagnostics := (AddError resp.Diagnostics "Client Error"
          ("Unable to delete ospf interface, got error: " ++ err.msg)) },
        [.DeleteOSPFInterface (ValueString data.Id)]⟩
    | none => ⟨resp, [.DeleteOSPFInterface (ValueString data.Id)]⟩

/-- `QuaggaOSPFInterfaceDataSource.Read`. `config` is what `req.Config.Get`
yields, `resp` the response as handed in. -/
def QuaggaOSPFInterfaceDataSource.Read (client : QuaggaClient) (config : Decoded)
    (resp : Response) : Outcome :=
  let resp := { resp with Diagnostics := resp.Diagnostics ++ config.diags }
  if HasError resp.Diagnostics then ⟨resp, []⟩
  else
    let data := config.data
    match client.GetOSPFInterface (ValueString data.Id) with
    | .error err =>
      ⟨{ resp with Diagnostics := (AddError resp.Diagnostics "Client Error"
          ("Unable to read neighbor, got error: " ++ err.msg)) },
        [.GetOSPFInterface (ValueString data.Id)]⟩
    | .ok resource =>
      match convertQuaggaOSPFInterfaceStructToSchema resource with
      | .error err =>
        ⟨{ resp with Diagnostics := (AddError resp.Diagnostics "Client Error"
            ("Unable to read neighbor, got error: " ++ err.msg)) },
          [.GetOSPFInterface (ValueString data.Id)]⟩
      | .ok resourceModel =>
        let resourceModel := { resourceModel with Id := data.Id }
        ⟨StateSet resp resourceModel,
          [.GetOSPFInterface (ValueString data.Id), .StateSet resourceModel]⟩


/-! ## Models that respect the schema -/

/-- The value is known (neither null nor unknown). -/
def TfValue.isKnown {α : Type} : TfValue α → Bool
  | .known _ => true
  | _ => false

/-- The value is a known integer in `lo..hi`. -/
def TfValue.knownBetween (lo hi : Int) : TfValue Int → Bool
  | .known v => decide (lo ≤ v ∧ v ≤ hi)
  | _ => false

/-- The value is a known integer that is the sentinel `-1` or lies in
`lo..hi`. -/
def TfValue.sentinelOrBetween (lo hi : Int) : TfValue Int → Bool
  | .known v => decide (v = -1 ∨ (lo ≤ v ∧ v ≤ hi))
  | _ => false

/-- The value is a known string among `values`. -/
def TfValue.knownOneOf (values : List String) : TfValue String → Bool
  | .known s => values.contains s
  | _ => false

/-- A Declarative Model value that respects the field ranges and enums of the
spec's schema table: every field but `id` holds a value (the spec's record
has no absent fields), `authkey` is any 64-bit integer, and the constrained
fields meet their constraint. `id` is unconstrained. -/
def RespectsSchema (m : QuaggaOSPFInterfaceResourceModel) : Prop :=
  m.Enabled.isKnown = true ∧
  m.InterfaceName.isKnown = true ∧
  m.AuthType.knownOneOf ["", "message-digest", "plain"] = true ∧
  m.AuthKey.knownBetween (-9223372036854775808) 9223372036854775807 = true ∧
  m.AuthKeyID.knownBetween 1 255 = true ∧
  m.Area.isKnown = true ∧
  m.Cost.knownBetween 1 65535 = true ∧
  m.CostDemoted.knownBetween 1 65535 = true ∧
  m.HelloInterval.sentinelOrBetween 0 4294967295 = true ∧
  m.DeadInterval.sentinelOrBetween 0 4294967295 = true ∧
  m.RetransmitInterval.sentinelOrBetween 0 4294967295 = true ∧
  m.RetransmitDelay.sentinelOrBetween 0 4294967295 = true ∧
  m.TransmitDelay.sentinelOrBetween 0 4294967295 = true ∧
  m.Priority.sentinelOrBetween 0 4294967295 = true ∧
  m.BFD.isKnown = true ∧
  m.NetworkType.knownOneOf
    ["", "broadcast", "non-broadcast", "point-to-multipoint", "point-to-point"] = true

instance (m : QuaggaOSPFInterfaceResourceModel) : Decidable (RespectsSchema m) := by
  unfold RespectsSchema
  infer_instance

/-- The spec's worked example: interface `lan`, key id 5, the two costs at
their defaults and every optional integer at the sentinel. -/
def exampleModel : QuaggaOSPFInterfaceResourceModel where
  Enabled := .known true
  InterfaceName := .known "lan"
  AuthType := .known ""
  AuthKey := .known (-1)
  AuthKeyID := .known 5
  Area := .known "0.0.0.0"
  Cost := .known 40
  CostDemoted := .known 65535
  HelloInterval := .known (-1)
  DeadInterval := .known (-1)
  RetransmitInterval := .known (-1)
  RetransmitDelay := .known (-1)
  TransmitDelay := .known (-1)
  Priority := .known (-1)
  BFD := .known false
  NetworkType := .known ""
  Id := .unknown

/-! ## From a configuration to a planned model -/

/-- What a practitioner writes: for each attribute either a value or
nothing. `id` is computed only and cannot be configured. -/
structure QuaggaOSPFInterfaceConfig where
  Enabled : Option Bool := none
  InterfaceName : Option String := none
  AuthType : Option String := none
  AuthKey : Option Int := none
  AuthKeyID : Option Int := none
  Area : Option String := none
  Cost : Option Int := none
  CostDemoted : Option Int := none
  HelloInterval : Option Int := none
  DeadInterval : Option Int := none
  RetransmitInterval : Option Int := none
  RetransmitDelay : Option Int := none
  TransmitDelay : Option Int := none
  Priority : Option Int := none
  BFD : Option Bool := none
  NetworkType : Option String := none
  deriving DecidableEq, Repr

/-- The value the schema supplies for an omitted attribute: its static
default when it has one, otherwise unknown for a computed attribute and null
for any other. -/
def omittedValue {α : Type} (dflt : Option α) (computed : Bool) : TfValue α :=
  match dflt with
  | some d => .known d
  | none => if computed then .unknown else .null

/-- The planned value of the bool attribute `name`: the configured value, or
what the schema supplies when it is omitted; `none` when the configuration is
rejected (a required attribute is omitted, or `name` is no bool attribute). -/
def Schema.planBool (sch : Schema) (name : String) (cfg : Option Bool) :
    Option (TfValue Bool) :=
  match sch.attribute name with
  | some (.Bool a) =>
    match cfg with
    | some v => some (.known v)
    | none => if a.Required then none else some (omittedValue a.Default a.Computed)
  | _ => none

/-- The planned value of the string attribute `name`: the configured value
when every validator accepts it, or what the schema supplies when it is
omitted; `none` when the configuration is rejected. -/
def Schema.planString (sch : Schema) (name : String) (cfg : Option String) :
    Option (TfValue String) :=
  match sch.attribute name with
  | some (.String a) =>
    match cfg with
    | some v => if a.Validators.all (fun val => val.accepts v) then some (.known v) else none
    | none => if a.Required then none else some (omittedValue a.Default a.Computed)
  | _ => none

/-- The planned value of the int64 attribute `name`: the configured value
when every validator accepts it, or what the schema supplies when it is
omitted; `none` when the configuration is rejected. -/
def Schema.planInt64 (sch : Schema) (name : String) (cfg : Option Int) :
    Option (TfValue Int) :=
  match sch.attribute name with
  | some (.Int64 a) =>
    match cfg with
    | some v => if a.Validators.all (fun val => val.accepts v) then some (.known v) else none
    | none => if a.Required then none else some (omittedValue a.Default a.Computed)
  | _ => none

/-- The model the schema produces from a configuration, attribute by
attribute; `none` when any attribute is rejected. `id` is not configurable
and has no default, so it is what the schema supplies for an omitted
attribute (unknown, as it is computed). -/
def Schema.plan (sch : Schema) (cfg : QuaggaOSPFInterfaceConfig) :
    Option QuaggaOSPFInterfaceResourceModel :=
  match sch.planBool "enabled" cfg.Enabled with
  | none => none
  | some enabled =>
  match sch.planString "interfacename" cfg.InterfaceName with
  | none => none
  | some interfacename =>
  match sch.planString "authtype" cfg.AuthType with
  | none => none
  | some authtype =>
  match sch.planInt64 "authkey" cfg.AuthKey with
  | none => none
  | some authkey =>
  match sch.planInt64 "authkey_id" cfg.AuthKeyID with
  | none => none
  | some authkeyId =>
  match sch.planString "area" cfg.Area with
  | none => none
  | some area =>
  match sch.planInt64 "cost" cfg.Cost with
  | none => none
  | some cost =>
  match sch.planInt64 "cost_demoted" cfg.CostDemoted with
  | none => none
  | some costDemoted =>
  match sch.planInt64 "hellointerval" cfg.HelloInterval with
  | none => none
  | some hellointerval =>
  match sch.planInt64 "deadinterval" cfg.DeadInterval with
  | none => none
  | some deadinterval =>
  match sch.planInt64 "retransmitinterval" cfg.RetransmitInterval with
  | none => none
  | some retransmitinterval =>
  match sch.planInt64 "retransmitdelay" cfg.RetransmitDelay with
  | none => none
  | some retransmitdelay =>
  match sch.planInt64 "transmitdelay" cfg.TransmitDelay with
  | none => none
  | some transmitdelay =>
  match sch.planInt64 "priority" cfg.Priority with
  | none => none
  | some priority =>
  match sch.planBool "bfd" cfg.BFD with
  | none => none
  | some bfd =>
  match sch.planString "networktype" cfg.NetworkType with
  | none => none
  | some networktype =>
  match sch.planString "id" none with
  | none => none
  | some id =>
  some {
    Enabled := enabled
    InterfaceName := interfacename
    AuthType := authtype
    AuthKey := authkey
    AuthKeyID := authkeyId
    Area := area
    Cost := cost
    CostDemoted := costDemoted
    HelloInterval := hellointerval
    DeadInterval := deadinterval
    RetransmitInterval := retransmitinterval
    RetransmitDelay := retransmitdelay
    TransmitDelay := transmitdelay
    Priority := priority
    BFD := bfd
    NetworkType := networktype
    Id := id }

/-- The configuration of the spec's worked example: only the interface
name, the key id and the area are written, everything else is omitted. -/
def exampleConfig : QuaggaOSPFInterfaceConfig where
  InterfaceName := some "lan"
  AuthKeyID := some 5
  Area := some "0.0.0.0"

/-! ## Documented defaults -/

/-- The text that follows the first occurrence of `marker`, if there is
one. -/
def afterMarker (marker : List Char) : List Char → Option (List Char)
  | [] => if marker.isEmpty then some [] else none
  | c :: cs =>
    if marker.isPrefixOf (c :: cs) then some ((c :: cs).drop marker.length)
    else afterMarker marker cs

/-- The default a description documents: the text between the words
"Defaults to" followed by a backquote and the closing backquote; `none` when
the description has no such sentence. -/
def documentedDefault (description : String) : Option String :=
  match afterMarker "Defaults to `".data description.data with
  | some rest => some (String.mk (rest.takeWhile (fun c => c != Char.ofNat 96)))
  | none => none

/-- `MarkdownDescription` of an attribute of any kind. -/
def attributeDescription : Attribute → String
  | .Bool a => a.MarkdownDescription
  | .String a => a.MarkdownDescription
  | .Int64 a => a.MarkdownDescription

/-- The value the attribute supplies when it is omitted, written the way the
descriptions write values: `true`/`false`, a string between double quotes, an
integer as a decimal numeral; `none` when the attribute has no default. -/
def suppliedDefault : Attribute → Option String
  | .Bool a => a.Default.map (fun b => if b then "true" else "false")
  | .String a => a.Default.map (fun s => "\"" ++ s ++ "\"")
  | .Int64 a => a.Default.map (fun i =>
      if i < 0 then String.mk ('-' :: natToDec i.natAbs) else String.mk (natToDec i.toNat))

/-- The attribute's description documents a default and the attribute does
not supply that value when omitted. -/
def defaultMismatch (a : Attribute) : Bool :=
  match documentedDefault (attributeDescription a) with
  | some x => decide (suppliedDefault a ≠ some x)
  | none => false

/-- The names of the schema's attributes whose documented default is not the
value supplied, in source order. -/
def Schema.defaultMismatches (sch : Schema) : List String :=
  (sch.Attributes.filter (fun na => defaultMismatch na.2)).map (fun na => na.1)

/-! ## Concrete inputs -/

/-- A remote struct as the device could return it: interface `opt2`, plain
authentication, point-to-point. -/
def exampleRemote : OSPFInterface where
  Enabled := "1"
  InterfaceName := ⟨"opt2"⟩
  AuthType := ⟨"plain"⟩
  AuthKey := "-1"
  AuthKeyID := "7"
  Area := "0.0.0.1"
  Cost := "10"
  CostDemoted := "65535"
  HelloInterval := "10"
  DeadInterval := "40"
  RetransmitInterval := "-1"
  RetransmitDelay := "-1"
  TransmitDelay := "-1"
  Priority := "1"
  BFD := "0"
  NetworkType := ⟨"point-to-point"⟩

/-- A remote that accepts everything: Add answers the identifier `abc-123`,
Get answers `exampleRemote`, Update and Delete succeed. -/
def exampleClient : QuaggaClient where
  AddOSPFInterface := fun _ => .ok "abc-123"
  GetOSPFInterface := fun _ => .ok exampleRemote
  UpdateOSPFInterface := fun _ _ => none
  DeleteOSPFInterface := fun _ => none

/-- The error of a remote that does not know the identifier. -/
def notFoundError : GoError := ⟨"ospf interface not found", true⟩

/-- A remote on which every call fails with a `NotFoundError`. -/
def notFoundClient : QuaggaClient where
  AddOSPFInterface := fun _ => .error notFoundError
  GetOSPFInterface := fun _ => .error notFoundError
  UpdateOSPFInterface := fun _ _ => some notFoundError
  DeleteOSPFInterface := fun _ => some notFoundError

/-- The worked example once created: tracked under the identifier
`abc-123`. -/
def exampleState : QuaggaOSPFInterfaceResourceModel :=
  { exampleModel with Id := .known "abc-123" }

/-- A diagnostic as the framework returns it when the plan cannot be read
into the model. -/
def planError : Diagnostic := ⟨Severity.error, "Value Conversion Error", "mismatch"⟩

/-- The error of a remote that cannot be reached. -/
def connectionError : GoError := ⟨"connection refused", false⟩

/-- A remote on which every call fails with an error that is not a
`NotFoundError`. -/
def failingClient : QuaggaClient where
  AddOSPFInterface := fun _ => .error connectionError
  GetOSPFInterface := fun _ => .error connectionError
  UpdateOSPFInterface := fun _ _ => some connectionError
  DeleteOSPFInterface := fun _ => some connectionError

/-! ## Decimal numerals: reading back what was written -/

theorem digitChar_isDigit (d : Nat) (h : d < 10) : (digitChar d).isDigit = true := by
  interval_cases d <;> decide

theorem digitChar_toNat (d : Nat) (h : d < 10) : (digitChar d).toNat - 48 = d := by
  interval_cases d <;> decide

theorem digitChar_ne_minus (d : Nat) (h : d < 10) : digitChar d ≠ '-' := by
  interval_cases d <;> decide

theorem parseDigits_toDigitsFuel (fuel : Nat) :
    ∀ (n : Nat) (acc : List Char), n < fuel →
      parseDigits (toDigitsFuel fuel n acc) 0 = parseDigits acc n := by
  induction fuel with
  | zero => intro n acc h; omega
  | succ fuel ih =>
    intro n acc h
    have hd : n % 10 < 10 := Nat.mod_lt _ (by decide)
    unfold toDigitsFuel
    split
    · rename_i h0
      have hn : n % 10 = n := by omega
      rw [hn] at hd
      simp [parseDigits, digitChar_isDigit _ hd, digitChar_toNat _ hd, hn]
    · rename_i h0
      have hlt : n / 10 < fuel := by omega
      rw [ih (n / 10) _ hlt]
      have hn : n / 10 * 10 + n % 10 = n := by omega
      simp [parseDigits, digitChar_isDigit _ hd, digitChar_toNat _ hd, hn]

theorem toDigitsFuel_head (fuel : Nat) :
    ∀ (n : Nat) (acc : List Char),
      ∃ d rest, d < 10 ∧ toDigitsFuel (fuel + 1) n acc = digitChar d :: rest := by
  induction fuel with
  | zero =>
    intro n acc
    refine ⟨n % 10, acc, Nat.mod_lt _ (by decide), ?_⟩
    simp [toDigitsFuel]
  | succ fuel ih =>
    intro n acc
    unfold toDigitsFuel
    split
    · exact ⟨n % 10, acc, Nat.mod_lt _ (by decide), rfl⟩
    · exact ih (n / 10) _

theorem parseDigits_natToDec (n : Nat) : parseDigits (natToDec n) 0 = some n := by
  unfold natToDec
  rw [parseDigits_toDigitsFuel (n + 1) n [] (by omega)]
  rfl

theorem natToDec_head (n : Nat) : ∃ d rest, d < 10 ∧ natToDec n = digitChar d :: rest :=
  toDigitsFuel_head n n []

theorem StringToInt64_nonneg (n : Nat) (h : n ≤ 9223372036854775807) :
    StringToInt64 (String.mk (natToDec n)) = (n : Int) := by
  obtain ⟨d, rest, hd, hrest⟩ := natToDec_head n
  have hp := parseDigits_natToDec n
  rw [hrest] at hp
  have hm := digitChar_ne_minus d hd
  unfold StringToInt64
  simp only [hrest]
  split
  · rename_i heq; simp at heq
  · rename_i heq; simp at heq; exact absurd heq.1 hm
  · rw [hp]
    simp only
    rw [if_pos]
    omega

theorem StringToInt64_neg (n : Nat) (h : n ≤ 9223372036854775808) :
    StringToInt64 (String.mk ('-' :: natToDec n)) = -(n : Int) := by
  obtain ⟨d, rest, hd, hrest⟩ := natToDec_head n
  have hp := parseDigits_natToDec n
  rw [hrest] at hp
  unfold StringToInt64
  simp only [hrest]
  rw [hp]
  simp only
  rw [if_pos]
  omega

/-- Reading back the numeral written by `Int64ToString` gives the value, for
every 64-bit integer. -/
theorem StringToInt64_Int64ToString (i : Int)
    (h : -9223372036854775808 ≤ i ∧ i ≤ 9223372036854775807) :
    StringToInt64 (Int64ToString i) = i := by
  unfold Int64ToString
  split
  · rw [StringToInt64_neg _ (by omega)]; omega
  · rw [StringToInt64_nonneg _ (by omega)]; omega

/-- Reading back the numeral written by `Int64ToStringNegative` gives the
value, for every 64-bit integer. -/
theorem StringToInt64_Int64ToStringNegative (i : Int)
    (h : -9223372036854775808 ≤ i ∧ i ≤ 9223372036854775807) :
    StringToInt64 (Int64ToStringNegative i) = i := by
  unfold Int64ToStringNegative
  split
  · rw [StringToInt64_neg _ (by omega)]; omega
  · rw [StringToInt64_nonneg _ (by omega)]; omega

theorem StringToBool_BoolToString (b : Bool) : StringToBool (BoolToString b) = b := by
  cases b <;> decide

/-! ## Diagnostics -/

theorem HasError_AddError (ds : Diagnostics) (summary detail : String) :
    HasError (AddError ds summary detail) = true := by
  simp [HasError, AddError]

/-! ## Field round trips -/

theorem roundtrip_bool (x : TfValue Bool) (h : x.isKnown = true) :
    BoolValue (StringToBool (BoolToString (ValueBool x))) = x := by
  cases x with
  | known b => simp [ValueBool, BoolValue, StringToBool_BoolToString]
  | null => simp [TfValue.isKnown] at h
  | unknown => simp [TfValue.isKnown] at h

theorem roundtrip_string (x : TfValue String) (h : x.isKnown = true) :
    StringValue (ValueString x) = x := by
  cases x with
  | known b => rfl
  | null => simp [TfValue.isKnown] at h
  | unknown => simp [TfValue.isKnown] at h

theorem roundtrip_selected (x : TfValue String) (h : x.isKnown = true) :
    StringValue (SelectedMap.ofString (ValueString x)).String = x := by
  cases x with
  | known b => rfl
  | null => simp [TfValue.isKnown] at h
  | unknown => simp [TfValue.isKnown] at h

theorem knownOneOf_isKnown (values : List String) (x : TfValue String)
    (h : x.knownOneOf values = true) : x.isKnown = true := by
  cases x with
  | known b => rfl
  | null => simp [TfValue.knownOneOf] at h
  | unknown => simp [TfValue.knownOneOf] at h

theorem roundtrip_int64 (lo hi : Int) (x : TfValue Int)
    (hlo : -9223372036854775808 ≤ lo) (hhi : hi ≤ 9223372036854775807)
    (h : x.knownBetween lo hi = true) :
    Int64Value (StringToInt64 (Int64ToString (ValueInt64 x))) = x := by
  cases x with
  | known v =>
    simp only [TfValue.knownBetween, decide_eq_true_eq] at h
    simp only [ValueInt64, Int64Value]
    rw [StringToInt64_Int64ToString v (by omega)]
  | null => simp [TfValue.knownBetween] at h
  | unknown => simp [TfValue.knownBetween] at h

theorem roundtrip_int64_negative (lo hi : Int) (x : TfValue Int)
    (hlo : -9223372036854775808 ≤ lo) (hhi : hi ≤ 9223372036854775807)
    (h : x.sentinelOrBetween lo hi = true) :
    Int64Value (StringToInt64 (Int64ToStringNegative (ValueInt64 x))) = x := by
  cases x with
  | known v =>
    simp only [TfValue.sentinelOrBetween, decide_eq_true_eq] at h
    simp only [ValueInt64, Int64Value]
    rw [StringToInt64_Int64ToStringNegative v (by omega)]
  | null => simp [TfValue.sentinelOrBetween] at h
  | unknown => simp [TfValue.sentinelOrBetween] at h

theorem roundtrip_int64_any (x : TfValue Int)
    (h : x.knownBetween (-9223372036854775808) 9223372036854775807 = true) :
    Int64Value (StringToInt64 (Int64ToStringNegative (ValueInt64 x))) = x := by
  cases x with
  | known v =>
    simp only [TfValue.knownBetween, decide_eq_true_eq] at h
    simp only [ValueInt64, Int64Value]
    rw [StringToInt64_Int64ToStringNegative v h]
  | null => simp [TfValue.knownBetween] at h
  | unknown => simp [TfValue.knownBetween] at h

/-! ## The claims -/

/-- C1 (round trip). For every Declarative Model `m` that respects the schema
ranges and enums, converting `m` to the remote struct succeeds, converting
that struct back succeeds, and the result is `m` in every field except `id`,
which the converter leaves unset (null). -/
theorem C1_roundtrip (m : QuaggaOSPFInterfaceResourceModel) (h : RespectsSchema m) :
    ∃ s, convertQuaggaOSPFInterfaceSchemaToStruct m = .ok s ∧
      convertQuaggaOSPFInterfaceStructToSchema s = .ok { m with Id := TfValue.null } := by
  obtain ⟨hEn, hIf, hAt, hAk, hId, hAr, hCo, hCd, hHe, hDe, hRi, hRd, hTd, hPr, hBf, hNt⟩ := h
  refine ⟨_, rfl, ?_⟩
  simp only [convertQuaggaOSPFInterfaceStructToSchema]
  rw [roundtrip_bool _ hEn, roundtrip_selected _ hIf,
    roundtrip_selected _ (knownOneOf_isKnown _ _ hAt), roundtrip_int64_any _ hAk,
    roundtrip_int64 1 255 _ (by decide) (by decide) hId, roundtrip_string _ hAr,
    roundtrip_int64 1 65535 _ (by decide) (by decide) hCo,
    roundtrip_int64 1 65535 _ (by decide) (by decide) hCd,
    roundtrip_int64_negative 0 4294967295 _ (by decide) (by decide) hHe,
    roundtrip_int64_negative 0 4294967295 _ (by decide) (by decide) hDe,
    roundtrip_int64_negative 0 4294967295 _ (by decide) (by decide) hRi,
    roundtrip_int64_negative 0 4294967295 _ (by decide) (by decide) hRd,
    roundtrip_int64_negative 0 4294967295 _ (by decide) (by decide) hTd,
    roundtrip_int64_negative 0 4294967295 _ (by decide) (by decide) hPr,
    roundtrip_bool _ hBf, roundtrip_selected _ (knownOneOf_isKnown _ _ hNt)]

/-- Witness of C1 at the spec's worked example. -/
theorem C1_roundtrip_witness :
    RespectsSchema exampleModel ∧
    ∃ s, convertQuaggaOSPFInterfaceSchemaToStruct exampleModel = .ok s ∧
      convertQuaggaOSPFInterfaceStructToSchema s =
        .ok { exampleModel with Id := TfValue.null } :=
  ⟨by decide, C1_roundtrip exampleModel (by decide)⟩

/-- C2 (sentinel preservation). For `authkey` and each interval/priority
field: a model holding `-1` there is sent with the literal string `"-1"` in
the matching remote field, and a remote struct holding `"-1"` there is read
back, without error, as `-1`. -/
theorem C2_sentinel_preserved (m : QuaggaOSPFInterfaceResourceModel) (r : OSPFInterface) :
    (∃ s, convertQuaggaOSPFInterfaceSchemaToStruct { m with AuthKey := .known (-1) } = .ok s ∧
      s.AuthKey = "-1") ∧
    (∃ s, convertQuaggaOSPFInterfaceSchemaToStruct { m with HelloInterval := .known (-1) } = .ok s ∧
      s.HelloInterval = "-1") ∧
    (∃ s, convertQuaggaOSPFInterfaceSchemaToStruct { m with DeadInterval := .known (-1) } = .ok s ∧
      s.DeadInterval = "-1") ∧
    (∃ s, convertQuaggaOSPFInterfaceSchemaToStruct { m with RetransmitInterval := .known (-1) } = .ok s ∧
      s.RetransmitInterval = "-1") ∧
    (∃ s, convertQuaggaOSPFInterfaceSchemaToStruct { m with RetransmitDelay := .known (-1) } = .ok s ∧
      s.RetransmitDelay = "-1") ∧
    (∃ s, convertQuaggaOSPFInterfaceSchemaToStruct { m with TransmitDelay := .known (-1) } = .ok s ∧
      s.TransmitDelay = "-1") ∧
    (∃ s, convertQuaggaOSPFInterfaceSchemaToStruct { m with Priority := .known (-1) } = .ok s ∧
      s.Priority = "-1") ∧
    (∃ d, convertQuaggaOSPFInterfaceStructToSchema { r with AuthKey := "-1" } = .ok d ∧
      d.AuthKey = .known (-1)) ∧
    (∃ d, convertQuaggaOSPFInterfaceStructToSchema { r with HelloInterval := "-1" } = .ok d ∧
      d.HelloInterval = .known (-1)) ∧
    (∃ d, convertQuaggaOSPFInterfaceStructToSchema { r with DeadInterval := "-1" } = .ok d ∧
      d.DeadInterval = .known (-1)) ∧
    (∃ d, convertQuaggaOSPFInterfaceStructToSchema { r with RetransmitInterval := "-1" } = .ok d ∧
      d.RetransmitInterval = .known (-1)) ∧
    (∃ d, convertQuaggaOSPFInterfaceStructToSchema { r with RetransmitDelay := "-1" } = .ok d ∧
      d.RetransmitDelay = .known (-1)) ∧
    (∃ d, convertQuaggaOSPFInterfaceStructToSchema { r with TransmitDelay := "-1" } = .ok d ∧
      d.TransmitDelay = .known (-1)) ∧
    (∃ d, convertQuaggaOSPFInterfaceStructToSchema { r with Priority := "-1" } = .ok d ∧
      d.Priority = .known (-1)) := by
  have hw : Int64ToStringNegative (ValueInt64 (.known (-1))) = "-1" := by decide
  have hr : Int64Value (StringToInt64 "-1") = .known (-1) := by decide
  refine ⟨⟨_, rfl, hw⟩, ⟨_, rfl, hw⟩, ⟨_, rfl, hw⟩, ⟨_, rfl, hw⟩, ⟨_, rfl, hw⟩, ⟨_, rfl, hw⟩,
    ⟨_, rfl, hw⟩, ⟨_, rfl, hr⟩, ⟨_, rfl, hr⟩, ⟨_, rfl, hr⟩, ⟨_, rfl, hr⟩, ⟨_, rfl, hr⟩,
    ⟨_, rfl, hr⟩, ⟨_, rfl, hr⟩⟩

/-- C3 (not-found idempotence of the managed resource). When the prior state
was read without error: if Get fails with a `NotFoundError`, Read removes the
resource from the state and adds no diagnostic; and the response carries an
error diagnostic exactly when Get failed with an error that is not a
`NotFoundError`. -/
theorem C3_Read_notFound_removes (client : QuaggaClient) (state : Decoded) (resp : Response)
    (hpre : HasError (resp.Diagnostics ++ state.diags) = false) :
    (∀ e, client.GetOSPFInterface (ValueString state.data.Id) = .error e →
      e.isNotFound = true →
      (QuaggaOSPFInterfaceResource.Read client state resp).resp.State = none ∧
      (QuaggaOSPFInterfaceResource.Read client state resp).resp.Diagnostics =
        resp.Diagnostics ++ state.diags ∧
      (QuaggaOSPFInterfaceResource.Read client state resp).trace =
        [.GetOSPFInterface (ValueString state.data.Id), .StateRemoveResource]) ∧
    (HasError (QuaggaOSPFInterfaceResource.Read client state resp).resp.Diagnostics = true ↔
      ∃ e, client.GetOSPFInterface (ValueString state.data.Id) = .error e ∧
        e.isNotFound = false) := by
  unfold QuaggaOSPFInterfaceResource.Read
  simp only [hpre, Bool.false_eq_true, ↓reduceIte]
  constructor
  · intro e hget hnf
    simp only [hget, hnf, ↓reduceIte, StateRemoveResource, and_self]
  · cases hget : client.GetOSPFInterface (ValueString state.data.Id) with
    | error e =>
      cases hnf : e.isNotFound with
      | true =>
        simp only [hnf, ↓reduceIte, StateRemoveResource, hpre,
          Bool.false_eq_true, false_iff, not_exists, not_and]
        intro e2 he2
        cases he2
        simp [hnf]
      | false =>
        simp only [hnf, Bool.false_eq_true, ↓reduceIte, HasError_AddError, true_iff]
        exact ⟨e, rfl, hnf⟩
    | ok r =>
      simp only [convertQuaggaOSPFInterfaceStructToSchema, StateSet, hpre,
        Bool.false_eq_true, false_iff, not_exists, not_and]
      intro e2 he2
      cases he2

/-- Witness of C3: the tracked example read against a remote that no longer
knows it. -/
theorem C3_Read_notFound_removes_witness :
    HasError (([] : Diagnostics) ++ (Decoded.mk [] exampleState).diags) = false ∧
    (QuaggaOSPFInterfaceResource.Read notFoundClient ⟨[], exampleState⟩
      ⟨[], some exampleState⟩).resp.State = none ∧
    HasError (QuaggaOSPFInterfaceResource.Read notFoundClient ⟨[], exampleState⟩
      ⟨[], some exampleState⟩).resp.Diagnostics = false :=
  ⟨by decide,
    ((C3_Read_notFound_removes notFoundClient ⟨[], exampleState⟩ ⟨[], some exampleState⟩
      (by decide)).1 notFoundError rfl rfl).1,
    by decide⟩

/-- C4, as stated, fails: against a remote that answers `NotFoundError`, the
data source's Read reports an error and removes nothing, while the managed
resource's Read on the same input reports no error and removes the resource
from the state. -/
theorem C4_dataSource_notFound_counterexample :
    HasError (QuaggaOSPFInterfaceDataSource.Read notFoundClient ⟨[], exampleState⟩
      ⟨[], none⟩).resp.Diagnostics = true ∧
    (QuaggaOSPFInterfaceDataSource.Read notFoundClient ⟨[], exampleState⟩
      ⟨[], none⟩).trace = [.GetOSPFInterface "abc-123"] ∧
    HasError (QuaggaOSPFInterfaceResource.Read notFoundClient ⟨[], exampleState⟩
      ⟨[], none⟩).resp.Diagnostics = false ∧
    (QuaggaOSPFInterfaceResource.Read notFoundClient ⟨[], exampleState⟩
      ⟨[], none⟩).trace = [.GetOSPFInterface "abc-123", .StateRemoveResource] := by
  decide

/-- C4 (amended). When the configuration was read without error and Get
fails with any error, a `NotFoundError` included, the data source's Read adds
one "Client Error" diagnostic carrying the error's text, leaves the response
state as it was, and performs no effect other than the one Get call. -/
theorem C4_dataSource_Read_error (client : QuaggaClient) (config : Decoded) (resp : Response)
    (e : GoError)
    (hpre : HasError (resp.Diagnostics ++ config.diags) = false)
    (hget : client.GetOSPFInterface (ValueString config.data.Id) = .error e) :
    (QuaggaOSPFInterfaceDataSource.Read client config resp).resp.Diagnostics =
      resp.Diagnostics ++ config.diags ++
        [⟨Severity.error, "Client Error", "Unable to read neighbor, got error: " ++ e.msg⟩] ∧
    HasError (QuaggaOSPFInterfaceDataSource.Read client config resp).resp.Diagnostics = true ∧
    (QuaggaOSPFInterfaceDataSource.Read client config resp).resp.State = resp.State ∧
    (QuaggaOSPFInterfaceDataSource.Read client config resp).trace =
      [.GetOSPFInterface (ValueString config.data.Id)] := by
  unfold QuaggaOSPFInterfaceDataSource.Read
  simp only [hpre, hget, Bool.false_eq_true, ↓reduceIte, HasError_AddError, and_self, and_true]
  rfl

/-- Witness of C4 (amended): the lookup of `abc-123` on a remote that answers
`NotFoundError`. -/
theorem C4_dataSource_Read_error_witness :
    HasError (([] : Diagnostics) ++ (Decoded.mk [] exampleState).diags) = false ∧
    notFoundClient.GetOSPFInterface (ValueString (Decoded.mk [] exampleState).data.Id) =
      .error notFoundError ∧
    (QuaggaOSPFInterfaceDataSource.Read notFoundClient ⟨[], exampleState⟩
      ⟨[], none⟩).resp.Diagnostics =
      [⟨Severity.error, "Client Error",
        "Unable to read neighbor, got error: ospf interface not found"⟩] :=
  ⟨by decide, rfl,
    (C4_dataSource_Read_error notFoundClient ⟨[], exampleState⟩ ⟨[], none⟩ notFoundError
      (by decide) rfl).1⟩

/-- C5 at the failing input: the `networktype` validator of the resource
schema accepts exactly the four tokens `broadcast`, `non-broadcast`,
`point-to-multipoint`, `point-to-point`, and so rejects the empty string,
which is the attribute's own default and which the sibling `authtype`
validator does accept. -/
theorem C5_networktype_rejects_empty :
    quaggaOSPFInterfaceResourceSchema.acceptsString "networktype" "" = false ∧
    (∀ s, quaggaOSPFInterfaceResourceSchema.acceptsString "networktype" s = true ↔
      s ∈ ["broadcast", "non-broadcast", "point-to-multipoint", "point-to-point"]) ∧
    quaggaOSPFInterfaceResourceSchema.attribute "networktype" =
      some (.String {
        MarkdownDescription := "Defines the OSPF network type, impacting adjacency and LSA flooding methods. Defaults to `\"\"`."
        Optional := true
        Computed := true
        Default := some ""
        Validators := [.OneOf ["broadcast", "non-broadcast", "point-to-multipoint", "point-to-point"]] }) ∧
    quaggaOSPFInterfaceResourceSchema.acceptsString "authtype" "" = true := by
  refine ⟨by decide, ?_, by decide, by decide⟩
  intro s
  have h : quaggaOSPFInterfaceResourceSchema.attribute "networktype" =
      some (.String {
        MarkdownDescription := "Defines the OSPF network type, impacting adjacency and LSA flooding methods. Defaults to `\"\"`."
        Optional := true
        Computed := true
        Default := some ""
        Validators := [.OneOf ["broadcast", "non-broadcast", "point-to-multipoint", "point-to-point"]] }) := by
    decide
  simp [Schema.acceptsString, h, StringValidator.accepts]

/-- C6 (range rejection). The `authkey_id` validator of the resource schema
accepts an integer `v` exactly when `1 ≤ v ≤ 255`, so 0 and 256 are rejected;
and whenever reading the plan left an error diagnostic, Create and Update
return with no effect at all: no call on the remote client and no state
write. -/
theorem C6_authkey_id_range (v : Int) (client : QuaggaClient) (plan : Decoded)
    (resp : Response) (herr : HasError (resp.Diagnostics ++ plan.diags) = true) :
    (quaggaOSPFInterfaceResourceSchema.acceptsInt64 "authkey_id" v = true ↔ 1 ≤ v ∧ v ≤ 255) ∧
    quaggaOSPFInterfaceResourceSchema.acceptsInt64 "authkey_id" 0 = false ∧
    quaggaOSPFInterfaceResourceSchema.acceptsInt64 "authkey_id" 256 = false ∧
    (QuaggaOSPFInterfaceResource.Create client plan resp).trace = [] ∧
    (QuaggaOSPFInterfaceResource.Update client plan resp).trace = [] := by
  have h : quaggaOSPFInterfaceResourceSchema.attribute "authkey_id" =
      some (.Int64 {
        MarkdownDescription := "Numeric identifier for MD5 authentication, ensuring correct key selection. The auth key ID. Defaults to `1`."
        Required := true
        Validators := [.Between 1 255] }) := by
    decide
  refine ⟨?_, by decide, by decide, ?_, ?_⟩
  · simp [Schema.acceptsInt64, h, Int64Validator.accepts]
  · simp only [QuaggaOSPFInterfaceResource.Create, herr, ↓reduceIte]
  · simp only [QuaggaOSPFInterfaceResource.Update, herr, ↓reduceIte]

/-- Witness of C6: key id 300, with the plan read leaving an error
diagnostic. -/
theorem C6_authkey_id_range_witness :
    HasError (([] : Diagnostics) ++ (Decoded.mk [planError] exampleModel).diags) = true ∧
    quaggaOSPFInterfaceResourceSchema.acceptsInt64 "authkey_id" 0 = false ∧
    (QuaggaOSPFInterfaceResource.Create exampleClient ⟨[planError], exampleModel⟩
      ⟨[], none⟩).trace = [] :=
  ⟨by decide,
    (C6_authkey_id_range 300 exampleClient ⟨[planError], exampleModel⟩ ⟨[], none⟩
      (by decide)).2.1,
    (C6_authkey_id_range 300 exampleClient ⟨[planError], exampleModel⟩ ⟨[], none⟩
      (by decide)).2.2.2.1⟩

/-- C7 (enum rejection). The `authtype` validator of the resource schema
accepts a string exactly when it is one of `""`, `message-digest`, `plain`,
compared case-sensitively, so `md5`, `MD5` and `Plain` are rejected; and
whenever reading the plan left an error diagnostic, Create and Update make no
call on the remote client. -/
theorem C7_authtype_enum (s : String) (client : QuaggaClient) (plan : Decoded)
    (resp : Response) (herr : HasError (resp.Diagnostics ++ plan.diags) = true) :
    (quaggaOSPFInterfaceResourceSchema.acceptsString "authtype" s = true ↔
      s ∈ ["", "message-digest", "plain"]) ∧
    quaggaOSPFInterfaceResourceSchema.acceptsString "authtype" "md5" = false ∧
    quaggaOSPFInterfaceResourceSchema.acceptsString "authtype" "MD5" = false ∧
    quaggaOSPFInterfaceResourceSchema.acceptsString "authtype" "Plain" = false ∧
    ((QuaggaOSPFInterfaceResource.Create client plan resp).trace.filter
      Effect.isClientCall = []) ∧
    ((QuaggaOSPFInterfaceResource.Update client plan resp).trace.filter
      Effect.isClientCall = []) := by
  have h : quaggaOSPFInterfaceResourceSchema.attribute "authtype" =
      some (.String {
        MarkdownDescription := "Defines security method for OSPF exchanges (None, plain, or MD5) to prevent unauthorized updates. Choose `MD5` or `plain`."
        Optional := true
        Computed := true
        Default := some ""
        Validators := [.OneOf ["", "message-digest", "plain"]] }) := by
    decide
  refine ⟨?_, by decide, by decide, by decide, ?_, ?_⟩
  · simp [Schema.acceptsString, h, StringValidator.accepts]
  · simp only [QuaggaOSPFInterfaceResource.Create, herr, ↓reduceIte, List.filter_nil]
  · simp only [QuaggaOSPFInterfaceResource.Update, herr, ↓reduceIte, List.filter_nil]

/-- Witness of C7: the token `md5`, with the plan read leaving an error
diagnostic. -/
theorem C7_authtype_enum_witness :
    HasError (([] : Diagnostics) ++ (Decoded.mk [planError] exampleState).diags) = true ∧
    ¬ ("md5" ∈ ["", "message-digest", "plain"]) ∧
    quaggaOSPFInterfaceResourceSchema.acceptsString "authtype" "md5" = false ∧
    ((QuaggaOSPFInterfaceResource.Update exampleClient ⟨[planError], exampleState⟩
      ⟨[], some exampleState⟩).trace.filter Effect.isClientCall = []) :=
  ⟨by decide, by decide,
    (C7_authtype_enum "md5" exampleClient ⟨[planError], exampleState⟩ ⟨[], some exampleState⟩
      (by decide)).2.1,
    (C7_authtype_enum "md5" exampleClient ⟨[planError], exampleState⟩ ⟨[], some exampleState⟩
      (by decide)).2.2.2.2.2⟩

/-- C8 (Create postcondition). When the plan `p` was read without error and
the remote's Add, given the remote struct converted from `p`, returns the
identifier `i`: Add is the only client call made and it is made once with
that struct, the state written is `p` with `id` set to `i` and every other
field unchanged, and no diagnostic is added. -/
theorem C8_Create_postcondition (client : QuaggaClient) (plan : Decoded) (resp : Response)
    (payload : OSPFInterface) (i : String)
    (hpre : HasError (resp.Diagnostics ++ plan.diags) = false)
    (hconv : convertQuaggaOSPFInterfaceSchemaToStruct plan.data = .ok payload)
    (hadd : client.AddOSPFInterface payload = .ok i) :
    (QuaggaOSPFInterfaceResource.Create client plan resp).resp.State =
      some { plan.data with Id := .known i } ∧
    (QuaggaOSPFInterfaceResource.Create client plan resp).trace =
      [.AddOSPFInterface payload, .StateSet { plan.data with Id := .known i }] ∧
    ((QuaggaOSPFInterfaceResource.Create client plan resp).trace.filter Effect.isClientCall =
      [.AddOSPFInterface payload]) ∧
    (QuaggaOSPFInterfaceResource.Create client plan resp).resp.Diagnostics =
      resp.Diagnostics ++ plan.diags := by
  have hout : QuaggaOSPFInterfaceResource.Create client plan resp =
      ⟨⟨resp.Diagnostics ++ plan.diags, some { plan.data with Id := .known i }⟩,
        [.AddOSPFInterface payload, .StateSet { plan.data with Id := .known i }]⟩ := by
    unfold QuaggaOSPFInterfaceResource.Create
    simp only [hpre, Bool.false_eq_true, ↓reduceIte, hconv, hadd, StateSet, StringValue]
  rw [hout]
  refine ⟨rfl, rfl, ?_, rfl⟩
  simp [List.filter, Effect.isClientCall]

/-- Witness of C8: the spec's worked example, created on a remote that
answers `abc-123`. -/
theorem C8_Create_postcondition_witness :
    HasError (([] : Diagnostics) ++ (Decoded.mk [] exampleModel).diags) = false ∧
    (QuaggaOSPFInterfaceResource.Create exampleClient ⟨[], exampleModel⟩
      ⟨[], none⟩).resp.State = some exampleState :=
  ⟨by decide,
    (C8_Create_postcondition exampleClient ⟨[], exampleModel⟩ ⟨[], none⟩ _ "abc-123"
      (by decide) rfl rfl).1⟩

/-- C9 (identifier re-attachment on Read). When the prior state (for the data
source: the configuration) was read without error and Get, called with its
identifier, returns the remote struct `r`: the converter's result `m` has a
null `id`, and both the resource's Read and the data source's Read write
exactly `m` with `id` set to the identifier value held before, so the
identifier in the new state is the prior one, verbatim. -/
theorem C9_Read_reattaches_id (client : QuaggaClient) (state : Decoded) (resp : Response)
    (r : OSPFInterface) (m : QuaggaOSPFInterfaceResourceModel)
    (hpre : HasError (resp.Diagnostics ++ state.diags) = false)
    (hget : client.GetOSPFInterface (ValueString state.data.Id) = .ok r)
    (hconv : convertQuaggaOSPFInterfaceStructToSchema r = .ok m) :
    m.Id = TfValue.null ∧
    (QuaggaOSPFInterfaceResource.Read client state resp).resp.State =
      some { m with Id := state.data.Id } ∧
    (QuaggaOSPFInterfaceResource.Read client state resp).trace =
      [.GetOSPFInterface (ValueString state.data.Id),
        .StateSet { m with Id := state.data.Id }] ∧
    (QuaggaOSPFInterfaceDataSource.Read client state resp).resp.State =
      some { m with Id := state.data.Id } ∧
    (QuaggaOSPFInterfaceDataSource.Read client state resp).trace =
      [.GetOSPFInterface (ValueString state.data.Id),
        .StateSet { m with Id := state.data.Id }] ∧
    ((QuaggaOSPFInterfaceResource.Read client state resp).resp.State.map
      (fun d => d.Id) = some state.data.Id) ∧
    ((QuaggaOSPFInterfaceDataSource.Read client state resp).resp.State.map
      (fun d => d.Id) = some state.data.Id) := by
  have hid : m.Id = TfValue.null := by
    simp only [convertQuaggaOSPFInterfaceStructToSchema, Except.ok.injEq] at hconv
    rw [← hconv]
  have hres : QuaggaOSPFInterfaceResource.Read client state resp =
      ⟨⟨resp.Diagnostics ++ state.diags, some { m with Id := state.data.Id }⟩,
        [.GetOSPFInterface (ValueString state.data.Id),
          .StateSet { m with Id := state.data.Id }]⟩ := by
    unfold QuaggaOSPFInterfaceResource.Read
    simp only [hpre, Bool.false_eq_true, ↓reduceIte, hget, hconv, StateSet]
  have hds : QuaggaOSPFInterfaceDataSource.Read client state resp =
      ⟨⟨resp.Diagnostics ++ state.diags, some { m with Id := state.data.Id }⟩,
        [.GetOSPFInterface (ValueString state.data.Id),
          .StateSet { m with Id := state.data.Id }]⟩ := by
    unfold QuaggaOSPFInterfaceDataSource.Read
    simp only [hpre, Bool.false_eq_true, ↓reduceIte, hget, hconv, StateSet]
  rw [hres, hds]
  exact ⟨hid, rfl, rfl, rfl, rfl, rfl, rfl⟩

/-- Witness of C9: the tracked example refreshed from a remote that answers
`exampleRemote`. -/
theorem C9_Read_reattaches_id_witness :
    HasError (([] : Diagnostics) ++ (Decoded.mk [] exampleState).diags) = false ∧
    ((QuaggaOSPFInterfaceResource.Read exampleClient ⟨[], exampleState⟩
      ⟨[], some exampleState⟩).resp.State.map (fun d => d.Id) = some (.known "abc-123")) ∧
    ((QuaggaOSPFInterfaceDataSource.Read exampleClient ⟨[], exampleState⟩
      ⟨[], none⟩).resp.State.map (fun d => d.Id) = some (.known "abc-123")) :=
  ⟨by decide,
    (C9_Read_reattaches_id exampleClient ⟨[], exampleState⟩ ⟨[], some exampleState⟩
      exampleRemote _ (by decide) rfl rfl).2.2.2.2.2.1,
    (C9_Read_reattaches_id exampleClient ⟨[], exampleState⟩ ⟨[], none⟩
      exampleRemote _ (by decide) rfl rfl).2.2.2.2.2.2⟩

/-- C10 (Update postcondition). When the plan `p` was read without error:
Update makes exactly one client call, `UpdateOSPFInterface` with the
identifier `p.id` and the remote struct converted from `p`; and if that call
succeeds, the state written is `p` itself, `id` included, with no Get call and
no diagnostic added. -/
theorem C10_Update_postcondition (client : QuaggaClient) (plan : Decoded) (resp : Response)
    (payload : OSPFInterface)
    (hpre : HasError (resp.Diagnostics ++ plan.diags) = false)
    (hconv : convertQuaggaOSPFInterfaceSchemaToStruct plan.data = .ok payload) :
    ((QuaggaOSPFInterfaceResource.Update client plan resp).trace.filter Effect.isClientCall =
      [.UpdateOSPFInterface (ValueString plan.data.Id) payload]) ∧
    (client.UpdateOSPFInterface (ValueString plan.data.Id) payload = none →
      (QuaggaOSPFInterfaceResource.Update client plan resp).resp.State = some plan.data ∧
      (QuaggaOSPFInterfaceResource.Update client plan resp).trace =
        [.UpdateOSPFInterface (ValueString plan.data.Id) payload, .StateSet plan.data] ∧
      (QuaggaOSPFInterfaceResource.Update client plan resp).resp.Diagnostics =
        resp.Diagnostics ++ plan.diags) := by
  unfold QuaggaOSPFInterfaceResource.Update
  simp only [hpre, Bool.false_eq_true, ↓reduceIte, hconv]
  cases hupd : client.UpdateOSPFInterface (ValueString plan.data.Id) payload with
  | some e => simp [List.filter, Effect.isClientCall]
  | none => simp [List.filter, Effect.isClientCall, StateSet]

/-- Witness of C10: the tracked example with its cost changed to 10, updated
on a remote that accepts the call. -/
theorem C10_Update_postcondition_witness :
    HasError (([] : Diagnostics) ++
      (Decoded.mk [] { exampleState with Cost := .known 10 }).diags) = false ∧
    (QuaggaOSPFInterfaceResource.Update exampleClient
      ⟨[], { exampleState with Cost := .known 10 }⟩ ⟨[], some exampleState⟩).resp.State =
      some { exampleState with Cost := .known 10 } :=
  ⟨by decide,
    ((C10_Update_postcondition exampleClient ⟨[], { exampleState with Cost := .known 10 }⟩
      ⟨[], some exampleState⟩ _ (by decide) rfl).2 rfl).1⟩

/-- C11 (atomicity on failure). When the request's model was read without
error and the one remote call of the operation fails with the error `e` (for
Read: an error that is not a `NotFoundError`), each of Create, Read, Update
and Delete appends one "Client Error" diagnostic whose detail ends with the
text of `e`, leaves the response state exactly as it was handed in, and has no
effect other than the failed call: no state write and no state removal. -/
theorem C11_failure_leaves_state (client : QuaggaClient) (d : Decoded) (resp : Response)
    (payload : OSPFInterface) (e : GoError)
    (hpre : HasError (resp.Diagnostics ++ d.diags) = false)
    (hconv : convertQuaggaOSPFInterfaceSchemaToStruct d.data = .ok payload) :
    (client.AddOSPFInterface payload = .error e →
      QuaggaOSPFInterfaceResource.Create client d resp =
        ⟨⟨resp.Diagnostics ++ d.diags ++ [⟨Severity.error, "Client Error",
            "Unable to create ospf interface, got error: " ++ e.msg⟩], resp.State⟩,
          [.AddOSPFInterface payload]⟩) ∧
    (client.GetOSPFInterface (ValueString d.data.Id) = .error e → e.isNotFound = false →
      QuaggaOSPFInterfaceResource.Read client d resp =
        ⟨⟨resp.Diagnostics ++ d.diags ++ [⟨Severity.error, "Client Error",
            "Unable to read ospf interface, got error: " ++ e.msg⟩], resp.State⟩,
          [.GetOSPFInterface (ValueString d.data.Id)]⟩) ∧
    (client.UpdateOSPFInterface (ValueString d.data.Id) payload = some e →
      QuaggaOSPFInterfaceResource.Update client d resp =
        ⟨⟨resp.Diagnostics ++ d.diags ++ [⟨Severity.error, "Client Error",
            "Unable to create ospf interface, got error: " ++ e.msg⟩], resp.State⟩,
          [.UpdateOSPFInterface (ValueString d.data.Id) payload]⟩) ∧
    (client.DeleteOSPFInterface (ValueString d.data.Id) = some e →
      QuaggaOSPFInterfaceResource.Delete client d resp =
        ⟨⟨resp.Diagnostics ++ d.diags ++ [⟨Severity.error, "Client Error",
            "Unable to delete ospf interface, got error: " ++ e.msg⟩], resp.State⟩,
          [.DeleteOSPFInterface (ValueString d.data.Id)]⟩) := by
  refine ⟨?_, ?_, ?_, ?_⟩
  · intro hadd
    unfold QuaggaOSPFInterfaceResource.Create
    simp only [hpre, Bool.false_eq_true, ↓reduceIte, hconv, hadd, AddError]
  · intro hget hnf
    unfold QuaggaOSPFInterfaceResource.Read
    simp only [hpre, Bool.false_eq_true, ↓reduceIte, hget, hnf, AddError]
  · intro hupd
    unfold QuaggaOSPFInterfaceResource.Update
    simp only [hpre, Bool.false_eq_true, ↓reduceIte, hconv, hupd, AddError]
  · intro hdel
    unfold QuaggaOSPFInterfaceResource.Delete
    simp only [hpre, Bool.false_eq_true, ↓reduceIte, hdel, AddError]

/-- Witness of C11: the tracked example against a remote that refuses every
call; the state handed in is the state handed back, for Create the null
state. -/
theorem C11_failure_leaves_state_witness :
    HasError (([] : Diagnostics) ++ (Decoded.mk [] exampleState).diags) = false ∧
    (QuaggaOSPFInterfaceResource.Create failingClient ⟨[], exampleState⟩ ⟨[], none⟩).resp =
      ⟨[⟨Severity.error, "Client Error",
        "Unable to create ospf interface, got error: connection refused"⟩], none⟩ ∧
    (QuaggaOSPFInterfaceResource.Read failingClient ⟨[], exampleState⟩
      ⟨[], some exampleState⟩).resp.State = some exampleState ∧
    (QuaggaOSPFInterfaceResource.Update failingClient ⟨[], exampleState⟩
      ⟨[], some exampleState⟩).resp.State = some exampleState ∧
    (QuaggaOSPFInterfaceResource.Delete failingClient ⟨[], exampleState⟩
      ⟨[], some exampleState⟩).trace = [.DeleteOSPFInterface "abc-123"] :=
  ⟨by decide,
    congrArg Outcome.resp ((C11_failure_leaves_state failingClient ⟨[], exampleState⟩
      ⟨[], none⟩ _ connectionError (by decide) rfl).1 rfl),
    congrArg (fun o => o.resp.State) ((C11_failure_leaves_state failingClient
      ⟨[], exampleState⟩ ⟨[], some exampleState⟩ _ connectionError (by decide) rfl).2.1
      rfl rfl),
    congrArg (fun o => o.resp.State) ((C11_failure_leaves_state failingClient
      ⟨[], exampleState⟩ ⟨[], some exampleState⟩ _ connectionError (by decide) rfl).2.2.1
      rfl),
    congrArg Outcome.trace ((C11_failure_leaves_state failingClient ⟨[], exampleState⟩
      ⟨[], some exampleState⟩ _ connectionError (by decide) rfl).2.2.2 rfl)⟩

/-! ## Planned models -/

theorem planInt64_cases (sch : Schema) (name : String) (a : Int64Attribute) (lo hi : Int)
    (cfg : Option Int) (x : TfValue Int)
    (hattr : sch.attribute name = some (.Int64 a)) (hval : a.Validators = [.Between lo hi])
    (h : sch.planInt64 name cfg = some x) :
    x.knownBetween lo hi = true ∨
      (a.Required = false ∧ x = omittedValue a.Default a.Computed) := by
  unfold Schema.planInt64 at h
  simp only [hattr, hval] at h
  cases cfg with
  | some v =>
    left
    simp only [List.all_cons, List.all_nil, Bool.and_true, Int64Validator.accepts] at h
    split at h
    · rename_i hv
      simp only [Option.some.injEq] at h
      rw [← h]
      simpa [TfValue.knownBetween] using hv
    · cases h
  | none =>
    right
    simp only at h
    split at h
    · cases h
    · rename_i hr
      simp only [Option.some.injEq] at h
      exact ⟨by simpa using hr, h.symm⟩

theorem plan_int64_fields (sch : Schema) (cfg : QuaggaOSPFInterfaceConfig)
    (m : QuaggaOSPFInterfaceResourceModel) (h : sch.plan cfg = some m) :
    sch.planInt64 "authkey_id" cfg.AuthKeyID = some m.AuthKeyID ∧
    sch.planInt64 "cost" cfg.Cost = some m.Cost ∧
    sch.planInt64 "cost_demoted" cfg.CostDemoted = some m.CostDemoted ∧
    sch.planInt64 "hellointerval" cfg.HelloInterval = some m.HelloInterval ∧
    sch.planInt64 "deadinterval" cfg.DeadInterval = some m.DeadInterval ∧
    sch.planInt64 "retransmitinterval" cfg.RetransmitInterval = some m.RetransmitInterval ∧
    sch.planInt64 "retransmitdelay" cfg.RetransmitDelay = some m.RetransmitDelay ∧
    sch.planInt64 "transmitdelay" cfg.TransmitDelay = some m.TransmitDelay ∧
    sch.planInt64 "priority" cfg.Priority = some m.Priority := by
  unfold Schema.plan at h
  repeat' split at h
  all_goals first
    | (cases h; refine ⟨?_, ?_, ?_, ?_, ?_, ?_, ?_, ?_, ?_⟩ <;> (dsimp only; assumption))
    | cases h

theorem knownBetween_of_plan (sch : Schema) (name : String) (a : Int64Attribute)
    (lo hi : Int) (cfg : Option Int) (x : TfValue Int)
    (hattr : sch.attribute name = some (.Int64 a)) (hval : a.Validators = [.Between lo hi])
    (hd : a.Required = true ∨ (omittedValue a.Default a.Computed).knownBetween lo hi = true)
    (h : sch.planInt64 name cfg = some x) : x.knownBetween lo hi = true := by
  rcases planInt64_cases sch name a lo hi cfg x hattr hval h with hx | ⟨hr, hx⟩
  · exact hx
  · rcases hd with hd | hd
    · rw [hr] at hd; cases hd
    · rw [hx]; exact hd

theorem sentinelOrBetween_of_plan (sch : Schema) (name : String) (a : Int64Attribute)
    (lo hi : Int) (cfg : Option Int) (x : TfValue Int)
    (hattr : sch.attribute name = some (.Int64 a)) (hval : a.Validators = [.Between lo hi])
    (hd : omittedValue a.Default a.Computed = .known (-1))
    (h : sch.planInt64 name cfg = some x) : x.sentinelOrBetween lo hi = true := by
  rcases planInt64_cases sch name a lo hi cfg x hattr hval h with hx | ⟨_, hx⟩
  · cases x with
    | known v =>
      simp only [TfValue.knownBetween, decide_eq_true_eq] at hx
      simp only [TfValue.sentinelOrBetween, decide_eq_true_eq]
      exact Or.inr hx
    | null => simp [TfValue.knownBetween] at hx
    | unknown => simp [TfValue.knownBetween] at hx
  · rw [hx, hd]
    simp [TfValue.sentinelOrBetween]

theorem knownBetween_ne_sentinel (hi : Int) (x : TfValue Int)
    (h : x.knownBetween 1 hi = true) : x ≠ .known (-1) := by
  intro hx
  rw [hx] at h
  simp [TfValue.knownBetween] at h

/-- C12 (range invariant of schema-valid models). For every model the
resource schema produces from a configuration (each attribute a configured
value that passed its validators, or what the schema supplies when it is
omitted; a configuration omitting the required `authkey_id` produces no
model): `authkey_id` is in 1..255, `cost` and `cost_demoted` are in 1..65535
and so never `-1`, and each of the six interval/priority fields is `-1` or in
0..4294967295. -/
theorem C12_planned_ranges (cfg : QuaggaOSPFInterfaceConfig)
    (m : QuaggaOSPFInterfaceResourceModel)
    (h : quaggaOSPFInterfaceResourceSchema.plan cfg = some m) :
    m.AuthKeyID.knownBetween 1 255 = true ∧
    m.Cost.knownBetween 1 65535 = true ∧
    m.CostDemoted.knownBetween 1 65535 = true ∧
    m.Cost ≠ .known (-1) ∧
    m.CostDemoted ≠ .known (-1) ∧
    m.HelloInterval.sentinelOrBetween 0 4294967295 = true ∧
    m.DeadInterval.sentinelOrBetween 0 4294967295 = true ∧
    m.RetransmitInterval.sentinelOrBetween 0 4294967295 = true ∧
    m.RetransmitDelay.sentinelOrBetween 0 4294967295 = true ∧
    m.TransmitDelay.sentinelOrBetween 0 4294967295 = true ∧
    m.Priority.sentinelOrBetween 0 4294967295 = true := by
  obtain ⟨hId, hCo, hCd, hHe, hDe, hRi, hRd, hTd, hPr⟩ :=
    plan_int64_fields quaggaOSPFInterfaceResourceSchema cfg m h
  have hcost : m.Cost.knownBetween 1 65535 = true :=
    knownBetween_of_plan quaggaOSPFInterfaceResourceSchema "cost" _ 1 65535 _ _ rfl rfl (Or.inr (by decide)) hCo
  have hcostd : m.CostDemoted.knownBetween 1 65535 = true :=
    knownBetween_of_plan quaggaOSPFInterfaceResourceSchema "cost_demoted" _ 1 65535 _ _ rfl rfl (Or.inr (by decide)) hCd
  exact ⟨knownBetween_of_plan quaggaOSPFInterfaceResourceSchema "authkey_id" _ 1 255 _ _ rfl rfl (Or.inl rfl) hId,
    hcost, hcostd, knownBetween_ne_sentinel _ _ hcost, knownBetween_ne_sentinel _ _ hcostd,
    sentinelOrBetween_of_plan quaggaOSPFInterfaceResourceSchema "hellointerval" _ 0 4294967295 _ _ rfl rfl rfl hHe,
    sentinelOrBetween_of_plan quaggaOSPFInterfaceResourceSchema "deadinterval" _ 0 4294967295 _ _ rfl rfl rfl hDe,
    sentinelOrBetween_of_plan quaggaOSPFInterfaceResourceSchema "retransmitinterval" _ 0 4294967295 _ _ rfl rfl rfl hRi,
    sentinelOrBetween_of_plan quaggaOSPFInterfaceResourceSchema "retransmitdelay" _ 0 4294967295 _ _ rfl rfl rfl hRd,
    sentinelOrBetween_of_plan quaggaOSPFInterfaceResourceSchema "transmitdelay" _ 0 4294967295 _ _ rfl rfl rfl hTd,
    sentinelOrBetween_of_plan quaggaOSPFInterfaceResourceSchema "priority" _ 0 4294967295 _ _ rfl rfl rfl hPr⟩

/-- Witness of C12: the spec's worked example, planned from a configuration
that writes only the interface name, the key id and the area. -/
theorem C12_planned_ranges_witness :
    quaggaOSPFInterfaceResourceSchema.plan exampleConfig = some exampleModel ∧
    exampleModel.AuthKeyID.knownBetween 1 255 = true ∧
    exampleModel.Cost ≠ .known (-1) ∧
    exampleModel.Priority.sentinelOrBetween 0 4294967295 = true :=
  ⟨by decide, (C12_planned_ranges exampleConfig exampleModel (by decide)).1,
    (C12_planned_ranges exampleConfig exampleModel (by decide)).2.2.2.1,
    (C12_planned_ranges exampleConfig exampleModel (by decide)).2.2.2.2.2.2.2.2.2.2⟩

set_option maxRecDepth 100000 in
/-- C13 at the failing inputs: the description of `cost` documents the
default `-1` while the schema supplies 40 when `cost` is omitted, and the
description of `authkey_id` documents the default `1` while the attribute is
required and has no default, so a configuration omitting it produces no
model. These two are the only attributes whose documented default is not the
value supplied. -/
theorem C13_documented_defaults_differ :
    (quaggaOSPFInterfaceResourceSchema.attribute "cost").map
      (fun a => documentedDefault (attributeDescription a)) = some (some "-1") ∧
    (quaggaOSPFInterfaceResourceSchema.attribute "cost").map suppliedDefault =
      some (some "40") ∧
    (quaggaOSPFInterfaceResourceSchema.plan exampleConfig).map (fun m => m.Cost) =
      some (.known 40) ∧
    (quaggaOSPFInterfaceResourceSchema.attribute "authkey_id").map
      (fun a => documentedDefault (attributeDescription a)) = some (some "1") ∧
    (quaggaOSPFInterfaceResourceSchema.attribute "authkey_id").map suppliedDefault =
      some none ∧
    quaggaOSPFInterfaceResourceSchema.plan { exampleConfig with AuthKeyID := none } = none ∧
    quaggaOSPFInterfaceResourceSchema.defaultMismatches = ["authkey_id", "cost"] := by
  refine ⟨by decide, by decide, by decide, by decide, by decide, by decide, by decide⟩

end OPNsense
